import Mathlib

/-!
# Verification of the coffee-order workflow (temporal_coffee)

Shallow embedding of `src/temporal_coffee`:
* `domain/models.py` — `DrinkSize`, `OrderStatus`, `OrderRequest`, `OrderState`,
  `OrderResult`;
* `domain/pricing.py` — `StandardPricingStrategy.price_cents`;
* `workflows.py` — `OrderCoffeeWorkflow`: the `cancel_order` signal handler, the
  `get_status` query handler, the `_result` helper and the `run` entry point.

The Temporal host (retry scheduling, signal delivery) is not part of the
repository; where a claim depends on it, the host behaviour is modelled from
the spec and marked as such in the doc comment.

Executions of `run` are modelled by an interpreter over a `Sched`: how many
`cancel_order` signals the host delivers in each suspension window, and the
per-attempt outcome of each activity.
-/

/-- `DrinkSize` from `domain/models.py`: sizes S, M, L. -/
inductive DrinkSize where
  | S
  | M
  | L
deriving DecidableEq, Repr

/-- `OrderStatus` from `domain/models.py`: terminal status of an order. -/
inductive OrderStatus where
  | COMPLETED
  | FAILED
  | CANCELLED
deriving DecidableEq, Repr

/-- `OrderRequest` from `domain/models.py`. -/
structure OrderRequest where
  order_id : String
  drink : String
  size : DrinkSize
deriving DecidableEq, Repr

/-- `OrderState` from `domain/models.py`: the four workflow flags, all
initialized to `false`. -/
structure OrderState where
  charged : Bool := false
  brewed : Bool := false
  receipt_sent : Bool := false
  cancelled : Bool := false
deriving DecidableEq, Repr

/-- `OrderResult` from `domain/models.py`. -/
structure OrderResult where
  order_id : String
  status : OrderStatus
  charged : Bool
  brewed : Bool
  receipt_sent : Bool
  amount_cents : Nat
deriving DecidableEq, Repr

/-! ## Pricing (`domain/pricing.py`, `StandardPricingStrategy`) -/

/-- `StandardPricingStrategy.BASE_PRICES`: base price in cents keyed by size. -/
def BASE_PRICES : DrinkSize → Nat
  | .S => 300
  | .M => 450
  | .L => 600

/-- `StandardPricingStrategy.SURCHARGE_KEYWORDS`. -/
def SURCHARGE_KEYWORDS : List String := ["latte", "mocha"]

/-- `StandardPricingStrategy.SURCHARGE_CENTS`. -/
def SURCHARGE_CENTS : Nat := 75

/-- Python `needle` is a (contiguous) leading segment of `hay`. Helper for the
`in` operator on strings. -/
def leadMatch : List Char → List Char → Bool
  | [], _ => true
  | _ :: _, [] => false
  | a :: as, b :: bs => a == b && leadMatch as bs

/-- Python's `needle in hay` on strings: `needle` occurs as a contiguous
substring of `hay`. -/
def subMatch (needle : List Char) : List Char → Bool
  | [] => needle.isEmpty
  | c :: cs => leadMatch needle (c :: cs) || subMatch needle cs

/-- Python's `str.lower()` on the drink descriptor, as a character list. -/
def strLower (s : String) : List Char := s.data.map Char.toLower

/-- `StandardPricingStrategy.price_cents` from `domain/pricing.py`:
base price by size, plus the surcharge when the lowered drink descriptor
contains any surcharge keyword. -/
def price_cents (req : OrderRequest) : Nat :=
  let base := BASE_PRICES req.size
  let drink_lower := strLower req.drink
  if SURCHARGE_KEYWORDS.any (fun kw => subMatch kw.data drink_lower) then
    base + SURCHARGE_CENTS
  else
    base

/-! ## Workflow instance state (`workflows.py`, `OrderCoffeeWorkflow`) -/

/-- The mutable fields of an `OrderCoffeeWorkflow` instance, as initialised in
`__init__`: `self.state`, `self.request`, `self.amount_cents`. The pricing
strategy field always holds `StandardPricingStrategy`, embedded as
`price_cents`. -/
structure WorkflowInstance where
  state : OrderState
  request : Option OrderRequest
  amount_cents : Option Nat
deriving DecidableEq, Repr

/-- `OrderCoffeeWorkflow.__init__`: all flags false, no request, no amount. -/
def initInstance : WorkflowInstance :=
  { state := {}, request := none, amount_cents := none }

/-- `OrderCoffeeWorkflow.cancel_order` signal handler:
`self.state.cancelled = True`. -/
def cancel_order (w : WorkflowInstance) : WorkflowInstance :=
  { w with state := { w.state with cancelled := true } }

/-- The dictionary returned by the `get_status` query handler. -/
structure StatusSnapshot where
  cancelled : Bool
  charged : Bool
  brewed : Bool
  receipt_sent : Bool
  amount_cents : Option Nat
  order_id : Option String
deriving DecidableEq, Repr

/-- `OrderCoffeeWorkflow.get_status` query handler: reads the flags, the
amount and the order id (`None` when no request yet). -/
def get_status (w : WorkflowInstance) : StatusSnapshot :=
  { cancelled := w.state.cancelled
    charged := w.state.charged
    brewed := w.state.brewed
    receipt_sent := w.state.receipt_sent
    amount_cents := w.amount_cents
    order_id := w.request.map (fun r => r.order_id) }

/-- `get_status` as a state transformer: the method body only reads `self`,
so the instance component is returned unchanged. -/
def get_status_call (w : WorkflowInstance) : StatusSnapshot × WorkflowInstance :=
  (get_status w, w)

/-- `OrderCoffeeWorkflow._result`: build an `OrderResult` snapshot from the
current state (`self.request.order_id if self.request else ""`,
`self.amount_cents or 0`). -/
def mkResult (w : WorkflowInstance) (status : OrderStatus) : OrderResult :=
  { order_id := (w.request.map (fun r => r.order_id)).getD ""
    status := status
    charged := w.state.charged
    brewed := w.state.brewed
    receipt_sent := w.state.receipt_sent
    amount_cents := w.amount_cents.getD 0 }

/-! ## Retry policy and the host's retry loop -/

/-- `temporalio.common.RetryPolicy` fields used by `run` (intervals in
seconds, coefficient an integer here since the code uses 2.0 exactly). -/
structure RetryPolicy where
  maximum_attempts : Nat
  initial_interval : Nat
  backoff_coefficient : Nat
deriving DecidableEq, Repr

/-- The `retry_policy` literal constructed in `OrderCoffeeWorkflow.run`:
`maximum_attempts=5, initial_interval=1s, backoff_coefficient=2.0`. -/
def retry_policy : RetryPolicy :=
  { maximum_attempts := 5, initial_interval := 1, backoff_coefficient := 2 }

/-- The `activity_opts` dictionary in `run`: a 10-second per-attempt
start-to-close timeout and the retry policy, shared by all three steps. -/
structure ActivityOpts where
  start_to_close_timeout : Nat
  retry_policy : RetryPolicy
deriving DecidableEq, Repr

/-- `activity_opts` from `run`. -/
def activity_opts : ActivityOpts := ⟨10, retry_policy⟩

/-- Modelled from the spec: the orchestration host re-invokes a failing step
executor after each failed attempt until an attempt succeeds or the policy's
maximum attempt count is exhausted. `outcome i` is the success of the i-th
attempt (1-based); the result is the number of attempts made and whether the
final attempt succeeded. -/
def hostRetry (outcome : Nat → Bool) : Nat → Nat → Nat × Bool
  | 0, i => (i - 1, false)
  | remaining + 1, i =>
      if outcome i then (i, true) else hostRetry outcome remaining (i + 1)

/-- Modelled from the spec: `workflow.execute_activity` with the given
options dispatches the step through the host's retry loop, making at most
`maximum_attempts` attempts. -/
def execute_activity (opts : ActivityOpts) (outcome : Nat → Bool) : Nat × Bool :=
  hostRetry outcome opts.retry_policy.maximum_attempts 1

/-- Modelled from the spec: the delays the host waits between consecutive
attempts, `initial_interval * backoff_coefficient ^ k` before attempt k+2. -/
def retryDelays (p : RetryPolicy) : List Nat :=
  (List.range (p.maximum_attempts - 1)).map
    (fun k => p.initial_interval * p.backoff_coefficient ^ k)

/-! ## Execution schedules and the `run` interpreter -/

/-- The three activity dispatches made by `run`, in source order. -/
inductive StepName where
  | charge
  | brew
  | receipt
deriving DecidableEq, Repr

/-- One execution environment for a single workflow instance: how many
`cancel_order` signals the host delivers in each suspension window (before
the first pre-step check, and during each activity await), and the
per-attempt outcome of each activity's executor. The host serializes signal
handlers with step continuations, so signals take effect exactly at these
windows. -/
structure Sched where
  cancelsBeforeCharge : Nat
  cancelsDuringCharge : Nat
  cancelsDuringBrew : Nat
  cancelsDuringReceipt : Nat
  chargeOutcome : Nat → Bool
  brewOutcome : Nat → Bool
  receiptOutcome : Nat → Bool

/-- Deliver `n` consecutive `cancel_order` signals to the instance. -/
def applyCancels : Nat → WorkflowInstance → WorkflowInstance
  | 0, w => w
  | n + 1, w => applyCancels n (cancel_order w)

/-- The charge activity's retried dispatch under schedule `sch`. -/
def chargeCall (sch : Sched) : Nat × Bool :=
  execute_activity activity_opts sch.chargeOutcome

/-- The brew activity's retried dispatch under schedule `sch`. -/
def brewCall (sch : Sched) : Nat × Bool :=
  execute_activity activity_opts sch.brewOutcome

/-- The receipt activity's retried dispatch under schedule `sch`. -/
def receiptCall (sch : Sched) : Nat × Bool :=
  execute_activity activity_opts sch.receiptOutcome

/-- Everything observable about one execution of `run`: the returned
`OrderResult`, the final instance state, which steps were dispatched (in
order) with the attempt count the host used for each, and the trace of
instance states at each interleaving point of the execution. -/
structure RunOutcome where
  result : OrderResult
  final : WorkflowInstance
  dispatched : List StepName
  attempts : List (StepName × Nat)
  trace : List WorkflowInstance
deriving Repr

/-- `OrderCoffeeWorkflow.run` from `workflows.py`, as an interpreter over a
schedule. Mirrors the source line by line: store the request, price it
in-workflow, then for each of charge/brew/receipt check the cancelled flag
(returning a CANCELLED result without dispatching anything further if set),
dispatch the activity with `activity_opts`, and on success set the step's
flag; an activity failure after all retries is caught by the `except` and
returns a FAILED result; if all steps succeed, return COMPLETED. Cancel
signals delivered during an activity await mutate the flag before the
continuation resumes. -/
def run (req : OrderRequest) (sch : Sched) : RunOutcome :=
  let w0 := { initInstance with request := some req }
  let w1 := { w0 with amount_cents := some (price_cents req) }
  let w2 := applyCancels sch.cancelsBeforeCharge w1
  if w2.state.cancelled then
    { result := mkResult w2 .CANCELLED, final := w2, dispatched := [],
      attempts := [], trace := [initInstance, w0, w1, w2] }
  else
    let w3 := applyCancels sch.cancelsDuringCharge w2
    if (chargeCall sch).2 then
      let w4 := { w3 with state := { w3.state with charged := true } }
      if w4.state.cancelled then
        { result := mkResult w4 .CANCELLED, final := w4,
          dispatched := [.charge], attempts := [(.charge, (chargeCall sch).1)],
          trace := [initInstance, w0, w1, w2, w3, w4] }
      else
        let w5 := applyCancels sch.cancelsDuringBrew w4
        if (brewCall sch).2 then
          let w6 := { w5 with state := { w5.state with brewed := true } }
          if w6.state.cancelled then
            { result := mkResult w6 .CANCELLED, final := w6,
              dispatched := [.charge, .brew],
              attempts := [(.charge, (chargeCall sch).1), (.brew, (brewCall sch).1)],
              trace := [initInstance, w0, w1, w2, w3, w4, w5, w6] }
          else
            let w7 := applyCancels sch.cancelsDuringReceipt w6
            if (receiptCall sch).2 then
              let w8 := { w7 with state := { w7.state with receipt_sent := true } }
              { result := mkResult w8 .COMPLETED, final := w8,
                dispatched := [.charge, .brew, .receipt],
                attempts := [(.charge, (chargeCall sch).1),
                  (.brew, (brewCall sch).1), (.receipt, (receiptCall sch).1)],
                trace := [initInstance, w0, w1, w2, w3, w4, w5, w6, w7, w8] }
            else
              { result := mkResult w7 .FAILED, final := w7,
                dispatched := [.charge, .brew, .receipt],
                attempts := [(.charge, (chargeCall sch).1),
                  (.brew, (brewCall sch).1), (.receipt, (receiptCall sch).1)],
                trace := [initInstance, w0, w1, w2, w3, w4, w5, w6, w7] }
        else
          { result := mkResult w5 .FAILED, final := w5,
            dispatched := [.charge, .brew],
            attempts := [(.charge, (chargeCall sch).1), (.brew, (brewCall sch).1)],
            trace := [initInstance, w0, w1, w2, w3, w4, w5] }
    else
      { result := mkResult w3 .FAILED, final := w3, dispatched := [.charge],
        attempts := [(.charge, (chargeCall sch).1)],
        trace := [initInstance, w0, w1, w2, w3] }

/-- A schedule with no cancellation and every activity attempt succeeding. -/
def cleanSched : Sched :=
  { cancelsBeforeCharge := 0, cancelsDuringCharge := 0, cancelsDuringBrew := 0,
    cancelsDuringReceipt := 0, chargeOutcome := fun _ => true,
    brewOutcome := fun _ => true, receiptOutcome := fun _ => true }

/-! ## Flag-order and monotonicity predicates (for the trace invariants) -/

/-- Flag-wise ordering on `OrderState`: every flag set in `a` is also set in
`b` (no flag is ever reset between `a` and `b`). -/
def stateLEb (a b : OrderState) : Bool :=
  (!a.charged || b.charged) && (!a.brewed || b.brewed) &&
    (!a.receipt_sent || b.receipt_sent) && (!a.cancelled || b.cancelled)

/-- Flag-wise ordering lifted to workflow instances. -/
def instLEb (a b : WorkflowInstance) : Bool := stateLEb a.state b.state

/-- The step-order invariant on the flags: `receipt_sent` implies `brewed`
implies `charged`. -/
def flagOrderB (s : OrderState) : Bool :=
  (!s.receipt_sent || s.brewed) && (!s.brewed || s.charged)

/-- Modelled from the spec's words (§4.1, §8): base amount keyed by size
(S=300, M=450, L=600) plus a surcharge of 75 exactly when the item
descriptor, lowered, contains "latte" or "mocha". Used only to compare the
source's `price_cents` against the specification. -/
def specPrice (req : OrderRequest) : Nat :=
  (match req.size with
    | .S => 300
    | .M => 450
    | .L => 600) +
    (if subMatch "latte".data (strLower req.drink) ||
        subMatch "mocha".data (strLower req.drink) then 75 else 0)

/-! ## Sanity checks on concrete executions -/

example : price_cents ⟨"1", "latte", .M⟩ = 525 := by decide
example : price_cents ⟨"1", "espresso", .S⟩ = 300 := by decide
example : price_cents ⟨"1", "Mocha Latte", .L⟩ = 675 := by decide

example : retryDelays retry_policy = [1, 2, 4, 8] := by decide
example : execute_activity activity_opts (fun _ => false) = (5, false) := by decide
example : execute_activity activity_opts (fun i => decide (3 ≤ i)) = (3, true) := by decide

example :
    (run ⟨"1", "latte", .M⟩ cleanSched).result =
      ⟨"1", .COMPLETED, true, true, true, 525⟩ := by decide

example :
    (run ⟨"1", "latte", .M⟩ { cleanSched with cancelsBeforeCharge := 1 }).result =
      ⟨"1", .CANCELLED, false, false, false, 525⟩ := by decide

example :
    (run ⟨"1", "latte", .M⟩ { cleanSched with brewOutcome := fun _ => false }).result =
      ⟨"1", .FAILED, true, false, false, 525⟩ := by decide

/-! ## Helper lemmas -/

theorem cancel_order_idem (w : WorkflowInstance) :
    cancel_order (cancel_order w) = cancel_order w := rfl

theorem applyCancels_eq (n : Nat) (w : WorkflowInstance) :
    applyCancels n w = if n = 0 then w else cancel_order w := by
  induction n generalizing w with
  | zero => rfl
  | succ m ih =>
      cases m with
      | zero => rfl
      | succ k => simp [applyCancels] at ih ⊢; rw [ih]; rfl

theorem applyCancels_amount (n : Nat) (w : WorkflowInstance) :
    (applyCancels n w).amount_cents = w.amount_cents := by
  rw [applyCancels_eq]; split <;> rfl

theorem applyCancels_request (n : Nat) (w : WorkflowInstance) :
    (applyCancels n w).request = w.request := by
  rw [applyCancels_eq]; split <;> rfl

theorem applyCancels_charged (n : Nat) (w : WorkflowInstance) :
    (applyCancels n w).state.charged = w.state.charged := by
  rw [applyCancels_eq]; split <;> rfl

theorem applyCancels_brewed (n : Nat) (w : WorkflowInstance) :
    (applyCancels n w).state.brewed = w.state.brewed := by
  rw [applyCancels_eq]; split <;> rfl

theorem applyCancels_receipt_sent (n : Nat) (w : WorkflowInstance) :
    (applyCancels n w).state.receipt_sent = w.state.receipt_sent := by
  rw [applyCancels_eq]; split <;> rfl

theorem applyCancels_cancelled (n : Nat) (w : WorkflowInstance) :
    (applyCancels n w).state.cancelled = (w.state.cancelled || decide (0 < n)) := by
  rw [applyCancels_eq]
  split
  · simp_all
  · have hpos : 0 < n := Nat.pos_of_ne_zero (by assumption)
    simp [cancel_order, hpos]

theorem price_cents_pos (req : OrderRequest) : 0 < price_cents req := by
  have h : 0 < BASE_PRICES req.size := by cases req.size <;> decide
  simp only [price_cents]
  split <;> omega

theorem run_amount_eq (req : OrderRequest) (sch : Sched) :
    (run req sch).result.amount_cents = price_cents req := by
  simp only [run]
  split_ifs <;>
    simp [mkResult, applyCancels_amount, initInstance]

theorem run_final_amount (req : OrderRequest) (sch : Sched) :
    (run req sch).final.amount_cents = some (price_cents req) := by
  simp only [run]
  split_ifs <;>
    simp [applyCancels_amount, initInstance]

theorem run_final_request (req : OrderRequest) (sch : Sched) :
    (run req sch).final.request = some req := by
  simp only [run]
  split_ifs <;>
    simp [applyCancels_request, initInstance]

theorem run_result_eq_final (req : OrderRequest) (sch : Sched) :
    (run req sch).result = mkResult (run req sch).final (run req sch).result.status := by
  simp only [run]
  split_ifs <;> rfl

theorem stateLEb_refl (s : OrderState) : stateLEb s s = true := by
  rcases s with ⟨a, b, c, d⟩
  cases a <;> cases b <;> cases c <;> cases d <;> rfl

theorem stateLEb_cancel (s : OrderState) :
    stateLEb s { s with cancelled := true } = true := by
  rcases s with ⟨a, b, c, d⟩
  cases a <;> cases b <;> cases c <;> cases d <;> rfl

theorem instLEb_applyCancels (n : Nat) (w : WorkflowInstance) :
    instLEb w (applyCancels n w) = true := by
  rw [applyCancels_eq]
  split
  · exact stateLEb_refl w.state
  · exact stateLEb_cancel w.state

theorem instLEb_set_charged (w : WorkflowInstance) :
    instLEb w { w with state := { w.state with charged := true } } = true := by
  rcases w with ⟨⟨a, b, c, d⟩, r, m⟩
  cases a <;> cases b <;> cases c <;> cases d <;> rfl

theorem instLEb_set_brewed (w : WorkflowInstance) :
    instLEb w { w with state := { w.state with brewed := true } } = true := by
  rcases w with ⟨⟨a, b, c, d⟩, r, m⟩
  cases a <;> cases b <;> cases c <;> cases d <;> rfl

theorem instLEb_set_receipt (w : WorkflowInstance) :
    instLEb w { w with state := { w.state with receipt_sent := true } } = true := by
  rcases w with ⟨⟨a, b, c, d⟩, r, m⟩
  cases a <;> cases b <;> cases c <;> cases d <;> rfl

theorem instLEb_set_request (w : WorkflowInstance) (r : Option OrderRequest) :
    instLEb w { w with request := r } = true := stateLEb_refl w.state

theorem instLEb_same_state (s : OrderState) (r₁ r₂ : Option OrderRequest)
    (m₁ m₂ : Option Nat) : instLEb ⟨s, r₁, m₁⟩ ⟨s, r₂, m₂⟩ = true :=
  stateLEb_refl s

theorem instLEb_set_amount (w : WorkflowInstance) (m : Option Nat) :
    instLEb w { w with amount_cents := m } = true := stateLEb_refl w.state

theorem hostRetry_all_fail (f : Nat → Bool) (hf : ∀ i, f i = false) :
    ∀ n i, hostRetry f n i = (i + n - 1, false) := by
  intro n
  induction n with
  | zero => intro i; simp [hostRetry]
  | succ m ih =>
      intro i
      have harith : i + 1 + m - 1 = i + (m + 1) - 1 := by omega
      simp [hostRetry, hf i, ih (i + 1), harith]

theorem execute_activity_all_fail (f : Nat → Bool) (hf : ∀ i, f i = false) :
    execute_activity activity_opts f = (5, false) := by
  show hostRetry f 5 1 = (5, false)
  rw [hostRetry_all_fail f hf]

/-! ## Claims -/

/-- C4: `StandardPricingStrategy.price_cents` returns the base amount keyed by
size — 300 for S, 450 for M, 600 for L — plus a surcharge of 75 exactly when
the drink descriptor, lowered, contains a keyword of {"latte", "mocha"}; in
particular a medium latte costs exactly 525 cents. -/
theorem coffee_C4 :
    (∀ req : OrderRequest, price_cents req = specPrice req) ∧
    price_cents ⟨"o1", "latte", .M⟩ = 525 ∧
    price_cents ⟨"o2", "espresso", .S⟩ = 300 ∧
    price_cents ⟨"o3", "espresso", .M⟩ = 450 ∧
    price_cents ⟨"o4", "espresso", .L⟩ = 600 := by
  refine ⟨?_, by decide, by decide, by decide, by decide⟩
  intro req
  rcases req with ⟨i, d, sz⟩
  cases sz <;>
    simp only [price_cents, specPrice, SURCHARGE_KEYWORDS, SURCHARGE_CENTS,
      BASE_PRICES, List.any_cons, List.any_nil, Bool.or_false] <;>
    split <;> simp_all

/-- C6: the `get_status` query handler mutates nothing, returns a snapshot of
exactly the four flags, the amount and the order identifier, is callable on
the initial state (amount and id absent), and after termination reports the
final flag values and the computed amount. -/
theorem coffee_C6 (w : WorkflowInstance) :
    (get_status_call w).2 = w ∧
    (get_status_call w).1 =
      { cancelled := w.state.cancelled, charged := w.state.charged,
        brewed := w.state.brewed, receipt_sent := w.state.receipt_sent,
        amount_cents := w.amount_cents,
        order_id := w.request.map (fun r => r.order_id) } ∧
    (get_status initInstance).amount_cents = none ∧
    (get_status initInstance).order_id = none ∧
    ∀ (req : OrderRequest) (sch : Sched),
      (get_status (run req sch).final).charged = (run req sch).result.charged ∧
      (get_status (run req sch).final).brewed = (run req sch).result.brewed ∧
      (get_status (run req sch).final).receipt_sent =
        (run req sch).result.receipt_sent ∧
      (get_status (run req sch).final).amount_cents = some (price_cents req) ∧
      (get_status (run req sch).final).order_id = some req.order_id := by
  refine ⟨rfl, rfl, rfl, rfl, ?_⟩
  intro req sch
  refine ⟨?_, ?_, ?_, ?_, ?_⟩
  · rw [run_result_eq_final]; rfl
  · rw [run_result_eq_final]; rfl
  · rw [run_result_eq_final]; rfl
  · exact run_final_amount req sch
  · simp [get_status, run_final_request]

/-- C7: pricing is deterministic — identical `OrderRequest` inputs give
identical `price_cents` outputs, and across any two executions of `run` on
the same request (any schedules, e.g. a crash-and-replay) the resulting
amounts agree. -/
theorem coffee_C7 :
    (∀ r₁ r₂ : OrderRequest, r₁ = r₂ → price_cents r₁ = price_cents r₂) ∧
    ∀ (req : OrderRequest) (sch₁ sch₂ : Sched),
      (run req sch₁).result.amount_cents = (run req sch₂).result.amount_cents := by
  refine ⟨fun r₁ r₂ h => by rw [h], fun req sch₁ sch₂ => ?_⟩
  rw [run_amount_eq, run_amount_eq]

/-- Witness for C7 at a concrete request and two concrete schedules. -/
theorem coffee_C7_witness :
    price_cents ⟨"w7", "latte", .M⟩ = price_cents ⟨"w7", "latte", .M⟩ ∧
    (run ⟨"w7", "latte", .M⟩ cleanSched).result.amount_cents =
      (run ⟨"w7", "latte", .M⟩
        { cleanSched with chargeOutcome := fun _ => false }).result.amount_cents :=
  ⟨coffee_C7.1 ⟨"w7", "latte", .M⟩ ⟨"w7", "latte", .M⟩ rfl,
    coffee_C7.2 ⟨"w7", "latte", .M⟩ cleanSched
      { cleanSched with chargeOutcome := fun _ => false }⟩

/-- C8: the `cancel_order` signal handler sets `cancelled` to true, changes
no other field, and is idempotent — any positive number of deliveries leaves
the state identical to a single delivery. -/
theorem coffee_C8 (w : WorkflowInstance) :
    cancel_order w = { w with state := { w.state with cancelled := true } } ∧
    (cancel_order w).state.cancelled = true ∧
    (cancel_order w).state.charged = w.state.charged ∧
    (cancel_order w).state.brewed = w.state.brewed ∧
    (cancel_order w).state.receipt_sent = w.state.receipt_sent ∧
    (cancel_order w).request = w.request ∧
    (cancel_order w).amount_cents = w.amount_cents ∧
    cancel_order (cancel_order w) = cancel_order w ∧
    ∀ n : Nat, 0 < n → applyCancels n w = cancel_order w := by
  refine ⟨rfl, rfl, rfl, rfl, rfl, rfl, rfl, rfl, ?_⟩
  intro n hn
  rw [applyCancels_eq, if_neg (by omega)]

/-- Witness for C8 at the initial instance with three deliveries. -/
theorem coffee_C8_witness :
    applyCancels 3 initInstance = cancel_order initInstance ∧
    cancel_order (cancel_order initInstance) = cancel_order initInstance :=
  ⟨(coffee_C8 initInstance).2.2.2.2.2.2.2.2 3 (by decide),
    (coffee_C8 initInstance).2.2.2.2.2.2.2.1⟩

/-- C9: every `OrderResult` returned by `run` carries
`amount_cents = price_cents req` — pricing runs before the first cancellation
check, so the zero default of `_result` is unreachable in a terminal
result. -/
theorem coffee_C9 (req : OrderRequest) (sch : Sched) :
    (run req sch).result.amount_cents = price_cents req ∧
    0 < (run req sch).result.amount_cents := by
  refine ⟨run_amount_eq req sch, ?_⟩
  rw [run_amount_eq]
  exact price_cents_pos req

/-- C1: cancellation takes effect only at the pre-step check boundaries of
`run` — if the cancelled flag is set when a step's pre-check runs, neither
that step nor any later step is dispatched and the result is CANCELLED with
flags exactly for the steps already completed; a flag set only after the
last step has been dispatched has no effect on the result. -/
theorem coffee_C1 (req : OrderRequest) (sch : Sched) :
    (0 < sch.cancelsBeforeCharge →
      (run req sch).result.status = .CANCELLED ∧
      (run req sch).dispatched = [] ∧
      (run req sch).result.charged = false ∧
      (run req sch).result.brewed = false ∧
      (run req sch).result.receipt_sent = false) ∧
    (sch.cancelsBeforeCharge = 0 → (chargeCall sch).2 = true →
      0 < sch.cancelsDuringCharge →
      (run req sch).result.status = .CANCELLED ∧
      (run req sch).dispatched = [.charge] ∧
      (run req sch).result.charged = true ∧
      (run req sch).result.brewed = false ∧
      (run req sch).result.receipt_sent = false) ∧
    (sch.cancelsBeforeCharge = 0 → sch.cancelsDuringCharge = 0 →
      (chargeCall sch).2 = true → (brewCall sch).2 = true →
      0 < sch.cancelsDuringBrew →
      (run req sch).result.status = .CANCELLED ∧
      (run req sch).dispatched = [.charge, .brew] ∧
      (run req sch).result.charged = true ∧
      (run req sch).result.brewed = true ∧
      (run req sch).result.receipt_sent = false) ∧
    (sch.cancelsBeforeCharge = 0 → sch.cancelsDuringCharge = 0 →
      sch.cancelsDuringBrew = 0 →
      (chargeCall sch).2 = true → (brewCall sch).2 = true →
      (run req sch).result = (run req { sch with cancelsDuringReceipt := 0 }).result ∧
      ((run req sch).result.status = .COMPLETED ∨
        (run req sch).result.status = .FAILED)) := by
  refine ⟨?_, ?_, ?_, ?_⟩
  · intro h
    have d0 : decide (0 < sch.cancelsBeforeCharge) = true := by simp [h]
    simp [run, applyCancels_cancelled, applyCancels_charged, applyCancels_brewed,
      applyCancels_receipt_sent, mkResult, initInstance, d0]
  · intro h0 hch h1
    have d1 : decide (0 < sch.cancelsDuringCharge) = true := by simp [h1]
    simp [run, applyCancels_cancelled, applyCancels_charged, applyCancels_brewed,
      applyCancels_receipt_sent, mkResult, initInstance, h0, hch, d1]
  · intro h0 h1 hch hbr h2
    have d2 : decide (0 < sch.cancelsDuringBrew) = true := by simp [h2]
    simp [run, applyCancels_cancelled, applyCancels_charged, applyCancels_brewed,
      applyCancels_receipt_sent, mkResult, initInstance, h0, h1, hch, hbr, d2]
  · intro h0 h1 h2 hch hbr
    simp only [chargeCall] at hch
    simp only [brewCall] at hbr
    cases hr : (execute_activity activity_opts sch.receiptOutcome).2 with
    | false =>
        constructor
        · simp [run, chargeCall, brewCall, receiptCall, applyCancels,
            applyCancels_cancelled, applyCancels_charged, applyCancels_brewed,
            applyCancels_receipt_sent, applyCancels_amount, applyCancels_request,
            mkResult, initInstance, h0, h1, h2, hch, hbr, hr,
            OrderResult.mk.injEq]
        · right
          simp [run, chargeCall, brewCall, receiptCall, applyCancels_cancelled,
            applyCancels_charged, applyCancels_brewed, applyCancels_receipt_sent,
            mkResult, initInstance, h0, h1, h2, hch, hbr, hr]
    | true =>
        constructor
        · simp [run, chargeCall, brewCall, receiptCall, applyCancels,
            applyCancels_cancelled, applyCancels_charged, applyCancels_brewed,
            applyCancels_receipt_sent, applyCancels_amount, applyCancels_request,
            mkResult, initInstance, h0, h1, h2, hch, hbr, hr,
            OrderResult.mk.injEq]
        · left
          simp [run, chargeCall, brewCall, receiptCall, applyCancels_cancelled,
            applyCancels_charged, applyCancels_brewed, applyCancels_receipt_sent,
            mkResult, initInstance, h0, h1, h2, hch, hbr, hr]

/-- Witness for C1 at a concrete request and four concrete schedules, one per
cancellation boundary. -/
theorem coffee_C1_witness :
    ((run ⟨"w1", "latte", .M⟩
        { cleanSched with cancelsBeforeCharge := 1 }).result.status = .CANCELLED ∧
      (run ⟨"w1", "latte", .M⟩
        { cleanSched with cancelsBeforeCharge := 1 }).dispatched = [] ∧
      (run ⟨"w1", "latte", .M⟩
        { cleanSched with cancelsBeforeCharge := 1 }).result.charged = false ∧
      (run ⟨"w1", "latte", .M⟩
        { cleanSched with cancelsBeforeCharge := 1 }).result.brewed = false ∧
      (run ⟨"w1", "latte", .M⟩
        { cleanSched with cancelsBeforeCharge := 1 }).result.receipt_sent = false) ∧
    ((run ⟨"w1", "latte", .M⟩
        { cleanSched with cancelsDuringCharge := 1 }).result.status = .CANCELLED ∧
      (run ⟨"w1", "latte", .M⟩
        { cleanSched with cancelsDuringCharge := 1 }).dispatched = [.charge] ∧
      (run ⟨"w1", "latte", .M⟩
        { cleanSched with cancelsDuringCharge := 1 }).result.charged = true ∧
      (run ⟨"w1", "latte", .M⟩
        { cleanSched with cancelsDuringCharge := 1 }).result.brewed = false ∧
      (run ⟨"w1", "latte", .M⟩
        { cleanSched with cancelsDuringCharge := 1 }).result.receipt_sent = false) ∧
    ((run ⟨"w1", "latte", .M⟩
        { cleanSched with cancelsDuringBrew := 1 }).result.status = .CANCELLED ∧
      (run ⟨"w1", "latte", .M⟩
        { cleanSched with cancelsDuringBrew := 1 }).dispatched = [.charge, .brew] ∧
      (run ⟨"w1", "latte", .M⟩
        { cleanSched with cancelsDuringBrew := 1 }).result.charged = true ∧
      (run ⟨"w1", "latte", .M⟩
        { cleanSched with cancelsDuringBrew := 1 }).result.brewed = true ∧
      (run ⟨"w1", "latte", .M⟩
        { cleanSched with cancelsDuringBrew := 1 }).result.receipt_sent = false) ∧
    ((run ⟨"w1", "latte", .M⟩
        { cleanSched with cancelsDuringReceipt := 2 }).result =
      (run ⟨"w1", "latte", .M⟩
        { { cleanSched with cancelsDuringReceipt := 2 } with
            cancelsDuringReceipt := 0 }).result ∧
      ((run ⟨"w1", "latte", .M⟩
          { cleanSched with cancelsDuringReceipt := 2 }).result.status = .COMPLETED ∨
        (run ⟨"w1", "latte", .M⟩
          { cleanSched with cancelsDuringReceipt := 2 }).result.status = .FAILED)) :=
  ⟨(coffee_C1 ⟨"w1", "latte", .M⟩ _).1 (by decide),
    (coffee_C1 ⟨"w1", "latte", .M⟩ _).2.1 rfl (by decide) (by decide),
    (coffee_C1 ⟨"w1", "latte", .M⟩ _).2.2.1 rfl rfl (by decide) (by decide) (by decide),
    (coffee_C1 ⟨"w1", "latte", .M⟩ _).2.2.2 rfl rfl rfl (by decide) (by decide)⟩

/-- C2: along every execution trace of a single instance, each of the four
flags transitions only from false to true (never reset), and every reachable
state satisfies receipt_sent implies brewed implies charged. -/
theorem coffee_C2 (req : OrderRequest) (sch : Sched) :
    List.Chain' (fun a b => instLEb a b = true) (run req sch).trace ∧
    ∀ w ∈ (run req sch).trace, flagOrderB w.state = true := by
  constructor
  · simp only [run]
    split_ifs <;>
      simp [List.chain'_cons, List.chain'_singleton, instLEb_applyCancels,
        instLEb_set_charged, instLEb_set_brewed, instLEb_set_receipt,
        instLEb_set_request, instLEb_set_amount, instLEb_same_state]
  · simp only [run]
    split_ifs <;>
      simp [List.forall_mem_cons, flagOrderB, applyCancels_charged,
        applyCancels_brewed, applyCancels_receipt_sent, initInstance]

/-- Witness for C2 on a concrete execution that cancels mid-flight. -/
theorem coffee_C2_witness :
    List.Chain' (fun a b => instLEb a b = true)
      (run ⟨"w2", "latte", .M⟩ { cleanSched with cancelsDuringBrew := 1 }).trace ∧
    ∀ w ∈ (run ⟨"w2", "latte", .M⟩
        { cleanSched with cancelsDuringBrew := 1 }).trace,
      flagOrderB w.state = true :=
  coffee_C2 ⟨"w2", "latte", .M⟩ { cleanSched with cancelsDuringBrew := 1 }

/-- C3: a step failure after exhausting retries is caught inside `run`, which
returns normally with a FAILED result whose flags reflect exactly the steps
that had succeeded; the failure is observable only through the status
field. -/
theorem coffee_C3 (req : OrderRequest) (sch : Sched) :
    (sch.cancelsBeforeCharge = 0 → (chargeCall sch).2 = false →
      (run req sch).result.status = .FAILED ∧
      (run req sch).result.charged = false ∧
      (run req sch).result.brewed = false ∧
      (run req sch).result.receipt_sent = false ∧
      (run req sch).dispatched = [.charge]) ∧
    (sch.cancelsBeforeCharge = 0 → sch.cancelsDuringCharge = 0 →
      (chargeCall sch).2 = true → (brewCall sch).2 = false →
      (run req sch).result.status = .FAILED ∧
      (run req sch).result.charged = true ∧
      (run req sch).result.brewed = false ∧
      (run req sch).result.receipt_sent = false ∧
      (run req sch).dispatched = [.charge, .brew]) ∧
    (sch.cancelsBeforeCharge = 0 → sch.cancelsDuringCharge = 0 →
      sch.cancelsDuringBrew = 0 →
      (chargeCall sch).2 = true → (brewCall sch).2 = true →
      (receiptCall sch).2 = false →
      (run req sch).result.status = .FAILED ∧
      (run req sch).result.charged = true ∧
      (run req sch).result.brewed = true ∧
      (run req sch).result.receipt_sent = false ∧
      (run req sch).dispatched = [.charge, .brew, .receipt]) := by
  refine ⟨?_, ?_, ?_⟩
  · intro h0 hch
    simp [run, applyCancels_cancelled, applyCancels_charged, applyCancels_brewed,
      applyCancels_receipt_sent, mkResult, initInstance, h0, hch]
  · intro h0 h1 hch hbr
    simp [run, applyCancels_cancelled, applyCancels_charged, applyCancels_brewed,
      applyCancels_receipt_sent, mkResult, initInstance, h0, h1, hch, hbr]
  · intro h0 h1 h2 hch hbr hrc
    simp [run, applyCancels_cancelled, applyCancels_charged, applyCancels_brewed,
      applyCancels_receipt_sent, mkResult, initInstance, h0, h1, h2, hch, hbr, hrc]

/-- Witness for C3 at a concrete request with each step failing in turn. -/
theorem coffee_C3_witness :
    ((run ⟨"w3", "latte", .M⟩
        { cleanSched with chargeOutcome := fun _ => false }).result.status = .FAILED ∧
      (run ⟨"w3", "latte", .M⟩
        { cleanSched with chargeOutcome := fun _ => false }).result.charged = false ∧
      (run ⟨"w3", "latte", .M⟩
        { cleanSched with chargeOutcome := fun _ => false }).result.brewed = false ∧
      (run ⟨"w3", "latte", .M⟩
        { cleanSched with chargeOutcome := fun _ => false }).result.receipt_sent = false ∧
      (run ⟨"w3", "latte", .M⟩
        { cleanSched with chargeOutcome := fun _ => false }).dispatched = [.charge]) ∧
    ((run ⟨"w3", "latte", .M⟩
        { cleanSched with brewOutcome := fun _ => false }).result.status = .FAILED ∧
      (run ⟨"w3", "latte", .M⟩
        { cleanSched with brewOutcome := fun _ => false }).result.charged = true ∧
      (run ⟨"w3", "latte", .M⟩
        { cleanSched with brewOutcome := fun _ => false }).result.brewed = false ∧
      (run ⟨"w3", "latte", .M⟩
        { cleanSched with brewOutcome := fun _ => false }).result.receipt_sent = false ∧
      (run ⟨"w3", "latte", .M⟩
        { cleanSched with brewOutcome := fun _ => false }).dispatched = [.charge, .brew]) ∧
    ((run ⟨"w3", "latte", .M⟩
        { cleanSched with receiptOutcome := fun _ => false }).result.status = .FAILED ∧
      (run ⟨"w3", "latte", .M⟩
        { cleanSched with receiptOutcome := fun _ => false }).result.charged = true ∧
      (run ⟨"w3", "latte", .M⟩
        { cleanSched with receiptOutcome := fun _ => false }).result.brewed = true ∧
      (run ⟨"w3", "latte", .M⟩
        { cleanSched with receiptOutcome := fun _ => false }).result.receipt_sent = false ∧
      (run ⟨"w3", "latte", .M⟩
        { cleanSched with receiptOutcome := fun _ => false }).dispatched =
          [.charge, .brew, .receipt]) :=
  ⟨(coffee_C3 ⟨"w3", "latte", .M⟩ _).1 rfl (by decide),
    (coffee_C3 ⟨"w3", "latte", .M⟩ _).2.1 rfl rfl (by decide) (by decide),
    (coffee_C3 ⟨"w3", "latte", .M⟩ _).2.2 rfl rfl rfl (by decide) (by decide) (by decide)⟩

/-- C5: every step invocation of `run` attaches the same retry policy —
5 maximum attempts, 1-second initial delay, 2.0 backoff (delays 1, 2, 4, 8)
and a 10-second per-attempt start-to-close timeout — so an always-failing
step executor is attempted exactly 5 times before the order reaches
FAILED. -/
theorem coffee_C5 :
    retry_policy.maximum_attempts = 5 ∧
    retry_policy.initial_interval = 1 ∧
    retry_policy.backoff_coefficient = 2 ∧
    activity_opts.start_to_close_timeout = 10 ∧
    activity_opts.retry_policy = retry_policy ∧
    retryDelays retry_policy = [1, 2, 4, 8] ∧
    (∀ f : Nat → Bool, (∀ i, f i = false) →
      execute_activity activity_opts f = (5, false)) ∧
    ∀ (req : OrderRequest) (sch : Sched),
      sch.cancelsBeforeCharge = 0 → sch.cancelsDuringCharge = 0 →
      (chargeCall sch).2 = true → (∀ i, sch.brewOutcome i = false) →
      (run req sch).result.status = .FAILED ∧
      (run req sch).dispatched = [.charge, .brew] ∧
      (run req sch).attempts = [(.charge, (chargeCall sch).1), (.brew, 5)] := by
  refine ⟨rfl, rfl, rfl, rfl, rfl, by decide, execute_activity_all_fail, ?_⟩
  intro req sch h0 h1 hch hbf
  have hb : brewCall sch = (5, false) := execute_activity_all_fail _ hbf
  simp [run, applyCancels_cancelled, applyCancels_charged, applyCancels_brewed,
    applyCancels_receipt_sent, mkResult, initInstance, h0, h1, hch, hb]

/-- Witness for C5: an always-failing brew executor on a concrete request. -/
theorem coffee_C5_witness :
    execute_activity activity_opts (fun _ => false) = (5, false) ∧
    (run ⟨"w5", "latte", .M⟩
      { cleanSched with brewOutcome := fun _ => false }).result.status = .FAILED ∧
    (run ⟨"w5", "latte", .M⟩
      { cleanSched with brewOutcome := fun _ => false }).dispatched =
        [.charge, .brew] ∧
    (run ⟨"w5", "latte", .M⟩
      { cleanSched with brewOutcome := fun _ => false }).attempts =
        [(.charge, (chargeCall { cleanSched with brewOutcome := fun _ => false }).1),
          (.brew, 5)] :=
  ⟨coffee_C5.2.2.2.2.2.2.1 (fun _ => false) (fun _ => rfl),
    coffee_C5.2.2.2.2.2.2.2 ⟨"w5", "latte", .M⟩
      { cleanSched with brewOutcome := fun _ => false }
      rfl rfl (by decide) (fun _ => rfl)⟩

/-- C10: the specialty surcharge is applied at most once — every price is the
size base or the size base plus a single 75-cent surcharge; a drink matching
two keywords ("mocha latte", size M) still costs 450 + 75 = 525, never
450 + 150. -/
theorem coffee_C10 :
    (∀ req : OrderRequest,
      price_cents req = BASE_PRICES req.size ∨
      price_cents req = BASE_PRICES req.size + SURCHARGE_CENTS) ∧
    price_cents ⟨"o10", "mocha latte", .M⟩ = 525 := by
  refine ⟨?_, by decide⟩
  intro req
  simp only [price_cents]
  split
  · right; rfl
  · left; rfl
